import Mathlib

/-!
Shallow embedding of `src/components/ToolTrainer/SaveToDatabase.tsx`:
the `SaveToDatabase` dialog component. The component's local state, the
message-filtering transformation, the payload construction and the
`handleSave` operation are embedded as pure Lean functions; the external
collaborators (the persistence API and the toast notification service)
are modelled through an explicit event trace and an `Except`-valued
outcome parameter for the single persistence call an invocation makes.
-/

/-- A chunk's `kind` in the source is either a numeric ordinal or a string
label (`typeof chunk.kind === "number" ? ... : ...`); it may be absent.
The save path never inspects it. -/
inductive ChunkKindVal where
  | num (n : Nat)
  | label (s : String)
deriving DecidableEq, Repr

/-- A fragment of a message: `kind` and `text` (possibly absent). -/
structure Chunk where
  kind : Option ChunkKindVal
  text : Option String
deriving DecidableEq, Repr

/-- One message of the conversation: an ordered sequence of chunks. -/
structure Content where
  chunks : List Chunk
deriving DecidableEq, Repr

/-- JS `String.prototype.trim`: remove leading and trailing whitespace,
modelled on the string's character list. -/
def trimJS (s : String) : String :=
  String.mk (((s.data.dropWhile Char.isWhitespace).reverse.dropWhile Char.isWhitespace).reverse)

/-- The chunk filter of `handleSave` (line 57):
`(chunk) => chunk.text && chunk.text.trim() !== ""`.
An absent `text` and the empty string are both falsy in JS. -/
def chunkKept (c : Chunk) : Bool :=
  match c.text with
  | none => false
  | some t => decide (t ≠ "") && decide (trimJS t ≠ "")

/-- The filtering step of `handleSave` (lines 53-60): map each content to
one whose chunks are filtered by `chunkKept`, then remove contents with
no remaining chunks (`content.chunks.length > 0`). -/
def filterMessages (messages : List Content) : List Content :=
  (messages.map (fun c => { c with chunks := c.chunks.filter chunkKept })).filter
    (fun c => decide (c.chunks.length > 0))

/-- The spec's description of the same step, stated in its own words:
"for each `Content`, keep only `Chunk`s whose `text` trimmed is non-empty;
drop any `Content` left with zero chunks". -/
def specChunkKeep (c : Chunk) : Bool :=
  match c.text with
  | none => false
  | some t => decide (trimJS t ≠ "")

/-- The spec-side filtering: chunks whose text is present and non-empty
after trimming are kept; contents left with zero chunks are dropped. -/
def specFilterMessages (messages : List Content) : List Content :=
  (messages.map (fun c => { c with chunks := c.chunks.filter specChunkKeep })).filter
    (fun c => decide (c.chunks ≠ []))

/-- The save mode radio selection: `"database" | "json"`. -/
inductive SaveMode where
  | database
  | json
deriving DecidableEq, Repr

/-- The component's local state (lines 29-35). -/
structure DialogState where
  isOpen : Bool
  isSaving : Bool
  name : String
  description : String
  localTags : List String
  saveMode : SaveMode
  filePath : String
deriving DecidableEq, Repr

/-- The payload built by `handleSave` (lines 62-71). -/
structure ExamplePayload where
  name : String
  description : String
  messages : List Content
  tags : List String
  is_global : Bool
  is_eval : Bool
  readable_by_user_ids : List Nat
  readable_by_group_ids : List Nat
deriving DecidableEq, Repr

/-- Payload construction (lines 62-71): `name: name || "Example " + Date.now()`
(the empty string is the only falsy string), `description: description || ""`,
the filtered messages, the local tags, and the four fixed fields.
`now` stands for `Date.now()`. -/
def buildPayload (s : DialogState) (filteredMessages : List Content) (now : Nat) :
    ExamplePayload :=
  { name := if s.name = "" then "Example " ++ toString now else s.name
    description := if s.description = "" then "" else s.description
    messages := filteredMessages
    tags := s.localTags
    is_global := true
    is_eval := false
    readable_by_user_ids := []
    readable_by_group_ids := [] }

/-- A value thrown by a persistence call: either an `Error` instance
carrying a message, or any other thrown value. -/
inductive JsError where
  | errorObj (message : String)
  | nonError
deriving DecidableEq, Repr

/-- `error instanceof Error ? error.message : "Failed to save example"`
(line 110). -/
def errMessage : JsError → String
  | JsError.errorObj m => m
  | JsError.nonError => "Failed to save example"

/-- Observable effects of one `handleSave` invocation: `setIsSaving`
mutations, persistence-API calls, and toast notifications
(`destructive = true` marks `variant: "destructive"`). -/
inductive Event where
  | setSaving (b : Bool)
  | apiCreateExample (payload : ExamplePayload)
  | apiSaveToJSON (path : String) (payload : ExamplePayload)
  | toast (title : String) (descr : String) (destructive : Bool)
deriving DecidableEq, Repr

/-- Recognises toast events. -/
def isToastEvent : Event → Bool
  | Event.toast _ _ _ => true
  | _ => false

/-- Recognises persistence-API call events. -/
def isApiEvent : Event → Bool
  | Event.apiCreateExample _ => true
  | Event.apiSaveToJSON _ _ => true
  | _ => false

/-- `handleSave` (lines 48-116), as a pure function from the component
state, the `messages` prop, `Date.now()` and the outcome of the (single)
persistence call it may make, to the final state and the event trace.
The trace begins with `setIsSaving(true)` (line 49) and ends with the
`finally` block's `setIsSaving(false)` (line 114); in the json-mode
validation branch the explicit `setIsSaving(false)` of line 90 runs
before the `finally` one, so that trace carries both. -/
def handleSave (s : DialogState) (messages : List Content) (now : Nat)
    (apiResult : Except JsError Unit) : DialogState × List Event :=
  let payload := buildPayload s (filterMessages messages) now
  match s.saveMode with
  | SaveMode.database =>
    match apiResult with
    | Except.ok _ =>
        ({ s with isOpen := false, name := "", description := "",
                  localTags := [], filePath := "", isSaving := false },
         [Event.setSaving true,
          Event.apiCreateExample payload,
          Event.toast "Success" "Example saved to database successfully" false,
          Event.setSaving false])
    | Except.error e =>
        ({ s with isSaving := false },
         [Event.setSaving true,
          Event.apiCreateExample payload,
          Event.toast "Error" (errMessage e) true,
          Event.setSaving false])
  | SaveMode.json =>
    if trimJS s.filePath = "" then
      ({ s with isSaving := false },
       [Event.setSaving true,
        Event.toast "Error" "Please provide a file path for the JSON file." true,
        Event.setSaving false,
        Event.setSaving false])
    else
      match apiResult with
      | Except.ok _ =>
          ({ s with isOpen := false, name := "", description := "",
                    localTags := [], filePath := "", isSaving := false },
           [Event.setSaving true,
            Event.apiSaveToJSON s.filePath payload,
            Event.toast "Success" "Example saved to JSON file successfully" false,
            Event.setSaving false])
      | Except.error e =>
          ({ s with isSaving := false },
           [Event.setSaving true,
            Event.apiSaveToJSON s.filePath payload,
            Event.toast "Error" (errMessage e) true,
            Event.setSaving false])

/-- The save button's `disabled` expression (line 260):
`isSaving || !name.trim() || messages.length === 0`. -/
def saveButtonDisabled (s : DialogState) (messages : List Content) : Bool :=
  s.isSaving || decide (trimJS s.name = "") || decide (messages.length = 0)

/-! ## Helper lemmas -/

theorem chunkKept_eq_specChunkKeep (c : Chunk) : chunkKept c = specChunkKeep c := by
  unfold chunkKept specChunkKeep
  cases h : c.text with
  | none => rfl
  | some t =>
    by_cases ht : t = ""
    · subst ht; simp [trimJS]
    · simp [ht]

theorem mem_filterMessages {c : Content} {messages : List Content}
    (hc : c ∈ filterMessages messages) :
    0 < c.chunks.length ∧ ∀ ch ∈ c.chunks, chunkKept ch = true := by
  unfold filterMessages at hc
  rw [List.mem_filter] at hc
  obtain ⟨hmem, hlen⟩ := hc
  simp only [decide_eq_true_eq] at hlen
  refine ⟨hlen, ?_⟩
  rw [List.mem_map] at hmem
  obtain ⟨c0, _, hc0⟩ := hmem
  intro ch hch
  rw [← hc0] at hch
  simp only at hch
  exact (List.mem_filter.mp hch).2

/-! ## Claim theorems -/

/-- C1: the filtering step of `save()` keeps, in each `Content` and in their
original order, exactly the chunks whose text is present and non-empty after
trimming, and drops every `Content` whose chunk list becomes empty (stated as
the equality of `filterMessages` and the spec-worded `specFilterMessages`);
moreover every retained chunk's trimmed text is non-empty and every retained
`Content` has a non-empty chunk list. -/
theorem C1_filtering_correct (messages : List Content) :
    filterMessages messages = specFilterMessages messages ∧
    ∀ c ∈ filterMessages messages, c.chunks ≠ [] ∧
      ∀ ch ∈ c.chunks, ∃ t, ch.text = some t ∧ trimJS t ≠ "" := by
  constructor
  · unfold filterMessages specFilterMessages
    rw [funext chunkKept_eq_specChunkKeep]
    apply List.filter_congr
    intro c _
    exact decide_eq_decide.mpr List.length_pos
  · intro c hc
    obtain ⟨hlen, hall⟩ := mem_filterMessages hc
    refine ⟨List.length_pos.mp hlen, ?_⟩
    intro ch hch
    have hk := hall ch hch
    unfold chunkKept at hk
    cases h : ch.text with
    | none => rw [h] at hk; exact absurd hk (by simp)
    | some t =>
      rw [h] at hk
      simp only [Bool.and_eq_true, decide_eq_true_eq] at hk
      exact ⟨t, rfl, hk.2⟩

/-- C9: the message-filtering transformation is idempotent: applying
`filterMessages` twice yields the same list as applying it once. -/
theorem C9_filter_idempotent (messages : List Content) :
    filterMessages (filterMessages messages) = filterMessages messages := by
  have key : ∀ l : List Content,
      (∀ c ∈ l, 0 < c.chunks.length ∧ ∀ ch ∈ c.chunks, chunkKept ch = true) →
      filterMessages l = l := by
    intro l hl
    unfold filterMessages
    have hmap : l.map (fun c => { c with chunks := c.chunks.filter chunkKept }) = l := by
      have := List.map_congr_left (l := l)
        (f := fun c => { c with chunks := c.chunks.filter chunkKept }) (g := id) ?_
      · simpa using this
      · intro c hc
        have hfil : c.chunks.filter chunkKept = c.chunks :=
          List.filter_eq_self.mpr (hl c hc).2
        cases c with
        | mk chunks => simp only [id]; rw [hfil]
    rw [hmap]
    apply List.filter_eq_self.mpr
    intro c hc
    simpa using (hl c hc).1
  exact key (filterMessages messages) (fun c hc => mem_filterMessages hc)

/-- C2: a json-mode save with blank (trimmed-empty) `filePath` emits exactly
the one validation toast `("Error", "Please provide a file path for the JSON
file.")`, makes no persistence-API call, and leaves the state unchanged apart
from `isSaving` being false — in particular the dialog stays open and no
field is reset. -/
theorem C2_json_empty_filepath (s : DialogState) (messages : List Content) (now : Nat)
    (r : Except JsError Unit) (hmode : s.saveMode = SaveMode.json)
    (hfp : trimJS s.filePath = "") :
    (handleSave s messages now r).2.filter isToastEvent =
      [Event.toast "Error" "Please provide a file path for the JSON file." true] ∧
    (handleSave s messages now r).2.filter isApiEvent = [] ∧
    (handleSave s messages now r).1 = { s with isSaving := false } := by
  unfold handleSave
  rw [hmode]
  simp [hfp, isToastEvent, isApiEvent]

/-- Witness for C2 at a concrete state (open dialog, json mode, empty
file path). -/
theorem C2_json_empty_filepath_witness :
    (handleSave ⟨true, false, "n", "d", ["t"], SaveMode.json, ""⟩ [] 0
        (Except.ok ())).2.filter isToastEvent =
      [Event.toast "Error" "Please provide a file path for the JSON file." true] ∧
    (handleSave ⟨true, false, "n", "d", ["t"], SaveMode.json, ""⟩ [] 0
        (Except.ok ())).2.filter isApiEvent = [] ∧
    (handleSave ⟨true, false, "n", "d", ["t"], SaveMode.json, ""⟩ [] 0
        (Except.ok ())).1 =
      { (⟨true, false, "n", "d", ["t"], SaveMode.json, ""⟩ : DialogState) with
          isSaving := false } :=
  C2_json_empty_filepath _ _ _ _ rfl (by decide)

/-- C3: when the chosen persistence call throws (database mode, or json mode
with a non-blank file path), the invocation emits exactly one toast, an error
toast whose description is the thrown error's `message` for an `Error`
instance and `"Failed to save example"` otherwise, and the final state keeps
every field — dialog open state included — except that `isSaving` is false. -/
theorem C3_persistence_error (s : DialogState) (messages : List Content) (now : Nat)
    (e : JsError)
    (hcall : s.saveMode = SaveMode.database ∨ trimJS s.filePath ≠ "") :
    (handleSave s messages now (Except.error e)).2.filter isToastEvent =
      [Event.toast "Error"
        (match e with
         | JsError.errorObj m => m
         | JsError.nonError => "Failed to save example") true] ∧
    (handleSave s messages now (Except.error e)).1 = { s with isSaving := false } := by
  unfold handleSave
  cases hm : s.saveMode with
  | database =>
    cases e <;> simp [isToastEvent, errMessage]
  | json =>
    have hfp : trimJS s.filePath ≠ "" := by
      rcases hcall with h | h
      · rw [hm] at h; exact absurd h (by simp)
      · exact h
    cases e <;> simp [hfp, isToastEvent, errMessage]

/-- Witness for C3 at a concrete database-mode state and a thrown
`Error("network down")`. -/
theorem C3_persistence_error_witness :
    (handleSave ⟨true, false, "n", "d", [], SaveMode.database, ""⟩ [] 0
        (Except.error (JsError.errorObj "network down"))).2.filter isToastEvent =
      [Event.toast "Error"
        (match JsError.errorObj "network down" with
         | JsError.errorObj m => m
         | JsError.nonError => "Failed to save example") true] ∧
    (handleSave ⟨true, false, "n", "d", [], SaveMode.database, ""⟩ [] 0
        (Except.error (JsError.errorObj "network down"))).1 =
      { (⟨true, false, "n", "d", [], SaveMode.database, ""⟩ : DialogState) with
          isSaving := false } :=
  C3_persistence_error _ _ _ _ (Or.inl rfl)

/-- C4: every `save()` invocation sets `isSaving` to true as its very first
effect and terminates with `isSaving` false, on every exit path (success,
json-mode validation abort, thrown persistence error). -/
theorem C4_isSaving_restored (s : DialogState) (messages : List Content) (now : Nat)
    (r : Except JsError Unit) :
    (handleSave s messages now r).2.head? = some (Event.setSaving true) ∧
    (handleSave s messages now r).2.getLast? = some (Event.setSaving false) ∧
    (handleSave s messages now r).1.isSaving = false := by
  unfold handleSave
  cases s.saveMode with
  | database => cases r <;> simp
  | json =>
    by_cases hfp : trimJS s.filePath = ""
    · simp [hfp]
    · cases r <;> simp [hfp]

/-- C5 counterexample: a json-mode invocation with blank `filePath` makes
zero persistence-API calls, refuting "exactly one external persistence call
... never zero calls" at this concrete input. -/
theorem C5_counterexample_zero_calls :
    ((handleSave ⟨true, false, "n", "d", [], SaveMode.json, ""⟩ [] 0
        (Except.ok ())).2.filter isApiEvent).length ≠ 1 := by decide

/-- C5 amended: every `save()` invocation makes at most one persistence
call; it is exactly `createExample(payload)` in database mode and exactly
`saveToJSON(filePath, payload)` in json mode with a non-blank file path,
while a json-mode invocation with blank (trimmed-empty) `filePath` makes
zero calls. -/
theorem C5_at_most_one_call (s : DialogState) (messages : List Content) (now : Nat)
    (r : Except JsError Unit) :
    (handleSave s messages now r).2.filter isApiEvent =
      (match s.saveMode with
       | SaveMode.database =>
           [Event.apiCreateExample (buildPayload s (filterMessages messages) now)]
       | SaveMode.json =>
           if trimJS s.filePath = "" then []
           else [Event.apiSaveToJSON s.filePath
                   (buildPayload s (filterMessages messages) now)]) ∧
    ((handleSave s messages now r).2.filter isApiEvent).length ≤ 1 := by
  unfold handleSave
  cases hm : s.saveMode with
  | database => cases r <;> simp [isApiEvent]
  | json =>
    by_cases hfp : trimJS s.filePath = ""
    · simp [hfp, isApiEvent]
    · cases r <;> simp [hfp, isApiEvent]

/-- C6: when the chosen persistence call succeeds, the invocation emits
exactly one toast, a success toast with the mode-specific message, closes
the dialog, and resets `name`, `description`, `filePath` to empty and
`localTags` to the empty list. -/
theorem C6_success_resets (s : DialogState) (messages : List Content) (now : Nat)
    (hcall : s.saveMode = SaveMode.database ∨ trimJS s.filePath ≠ "") :
    (handleSave s messages now (Except.ok ())).2.filter isToastEvent =
      [Event.toast "Success"
        (match s.saveMode with
         | SaveMode.database => "Example saved to database successfully"
         | SaveMode.json => "Example saved to JSON file successfully") false] ∧
    (handleSave s messages now (Except.ok ())).1 =
      { s with isOpen := false, name := "", description := "",
               localTags := [], filePath := "", isSaving := false } := by
  unfold handleSave
  cases hm : s.saveMode with
  | database => simp [isToastEvent]
  | json =>
    have hfp : trimJS s.filePath ≠ "" := by
      rcases hcall with h | h
      · rw [hm] at h; exact absurd h (by simp)
      · exact h
    simp [hfp, isToastEvent]

/-- Witness for C6 at a concrete database-mode state with a successful
persistence call. -/
theorem C6_success_resets_witness :
    (handleSave ⟨true, false, "Greeting", "d", ["t"], SaveMode.database, "p"⟩ [] 0
        (Except.ok ())).2.filter isToastEvent =
      [Event.toast "Success"
        (match SaveMode.database with
         | SaveMode.database => "Example saved to database successfully"
         | SaveMode.json => "Example saved to JSON file successfully") false] ∧
    (handleSave ⟨true, false, "Greeting", "d", ["t"], SaveMode.database, "p"⟩ [] 0
        (Except.ok ())).1 =
      { (⟨true, false, "Greeting", "d", ["t"], SaveMode.database, "p"⟩ : DialogState) with
          isOpen := false, name := "", description := "",
          localTags := [], filePath := "", isSaving := false } :=
  C6_success_resets _ _ _ (Or.inl rfl)

/-- C7 counterexample: with `isSaving = true`, a non-blank name and a
non-empty `messages` prop, the save control is disabled although the claim's
condition (name trimmed empty or messages empty) is false. -/
theorem C7_counterexample_isSaving :
    saveButtonDisabled ⟨true, true, "n", "", [], SaveMode.database, ""⟩
        [Content.mk []] = true ∧
    ¬(trimJS "n" = "" ∨ ([Content.mk []] : List Content) = []) := by decide

/-- C7 amended: the save control is disabled exactly when a save is in
flight (`isSaving`), or the name trimmed is empty, or the `messages` prop
is empty; it is enabled in all other states. -/
theorem C7_disabled_iff (s : DialogState) (messages : List Content) :
    saveButtonDisabled s messages = true ↔
      s.isSaving = true ∨ trimJS s.name = "" ∨ messages = [] := by
  unfold saveButtonDisabled
  simp [List.length_eq_zero, or_assoc]

/-- C8: under `save()`'s precondition (name trimmed non-empty), the payload
carries the current `name`, `description`, the local tags unmodified, the
filtered messages, and the fixed fields `is_global = true`, `is_eval = false`,
`readable_by_user_ids = []`, `readable_by_group_ids = []`. -/
theorem C8_payload_fields (s : DialogState) (messages : List Content) (now : Nat)
    (hname : trimJS s.name ≠ "") :
    buildPayload s (filterMessages messages) now =
      { name := s.name, description := s.description,
        messages := filterMessages messages, tags := s.localTags,
        is_global := true, is_eval := false,
        readable_by_user_ids := [], readable_by_group_ids := [] } := by
  have hne : s.name ≠ "" := by
    intro h; rw [h] at hname; exact hname (by decide)
  unfold buildPayload
  rw [if_neg hne]
  by_cases hd : s.description = "" <;> simp [hd]

/-- Witness for C8 at a concrete state with name `"Greeting"`. -/
theorem C8_payload_fields_witness :
    buildPayload ⟨true, false, "Greeting", "d", ["a"], SaveMode.database, ""⟩
        (filterMessages []) 0 =
      { name := "Greeting", description := "d",
        messages := filterMessages [], tags := ["a"],
        is_global := true, is_eval := false,
        readable_by_user_ids := [], readable_by_group_ids := [] } :=
  C8_payload_fields _ [] 0 (by decide)

/-- C10: database-mode saves are noninterferent with respect to `filePath`:
two states differing only in `filePath` build the same payload and produce
the same event trace — in particular the same single `createExample` call. -/
theorem C10_filepath_noninterference (s : DialogState) (fp1 fp2 : String)
    (messages : List Content) (now : Nat) (r : Except JsError Unit)
    (hmode : s.saveMode = SaveMode.database) :
    buildPayload { s with filePath := fp1 } (filterMessages messages) now =
      buildPayload { s with filePath := fp2 } (filterMessages messages) now ∧
    (handleSave { s with filePath := fp1 } messages now r).2 =
      (handleSave { s with filePath := fp2 } messages now r).2 := by
  constructor
  · rfl
  · unfold handleSave
    cases r <;> simp [hmode, buildPayload]

/-- Witness for C10: a blank and a non-blank `filePath` produce the same
payload and the same database-mode event trace. -/
theorem C10_filepath_noninterference_witness :
    buildPayload { (⟨true, false, "n", "d", [], SaveMode.database, "q"⟩ : DialogState) with
        filePath := "" } (filterMessages []) 0 =
      buildPayload { (⟨true, false, "n", "d", [], SaveMode.database, "q"⟩ : DialogState) with
        filePath := "/tmp/a.json" } (filterMessages []) 0 ∧
    (handleSave { (⟨true, false, "n", "d", [], SaveMode.database, "q"⟩ : DialogState) with
        filePath := "" } [] 0 (Except.ok ())).2 =
      (handleSave { (⟨true, false, "n", "d", [], SaveMode.database, "q"⟩ : DialogState) with
        filePath := "/tmp/a.json" } [] 0 (Except.ok ())).2 :=
  C10_filepath_noninterference _ "" "/tmp/a.json" [] 0 (Except.ok ()) rfl
